import Mathlib

/-!
Verification of the remote-control bridge and action orchestration engine
of the Superhuman CLI: a shallow embedding of the session locator, the
compose (draft) module, the read-status module, the attachment module and
the bulk-action command driver, together with theorems settling the
specified properties.
-/

set_option maxHeartbeats 1000000

/-- Substring test on character lists: true when `sub` occurs contiguously
in the list (embeds the JavaScript `String.prototype.includes`). -/
def containsFrom (sub : List Char) : List Char → Bool
  | [] => sub.isEmpty
  | c :: cs => sub.isPrefixOf (c :: cs) || containsFrom sub cs

/-- `strIncludes s sub` embeds the JavaScript `s.includes(sub)`. -/
def strIncludes (s sub : String) : Bool :=
  containsFrom sub.toList s.toList

/-- One execution target exposed by the debugging endpoint (an element of
the list returned by `CDP.List`), with the fields that
`connectToSuperhuman` in `superhuman-api.ts` inspects. -/
structure CdpTarget where
  url : String
  type : String
  id : String
deriving Repr, DecidableEq

/-- The predicate that `connectToSuperhuman` passes to `targets.find`:
the url must include the primary UI origin, must not include
`background` nor `serviceworker`, and the target type must be `page`. -/
def isSuperhumanMainPage (t : CdpTarget) : Bool :=
  strIncludes t.url "mail.superhuman.com" &&
  !strIncludes t.url "background" &&
  !strIncludes t.url "serviceworker" &&
  (t.type == "page")

/-- Embeds the target-selection step of `connectToSuperhuman` in
`superhuman-api.ts`: `targets.find(...)`, with `null` (here `none`) when
no target matches. -/
def connectToSuperhuman (targets : List CdpTarget) : Option CdpTarget :=
  targets.find? isSuperhumanMainPage

/-- First-match characterisation of `List.find?`: a found element
satisfies the predicate and every element before it fails it. -/
theorem find?_first_match {α : Type} (p : α → Bool) (l : List α) (a : α)
    (h : l.find? p = some a) :
    p a = true ∧ ∃ l1 l2, l = l1 ++ a :: l2 ∧ ∀ x ∈ l1, p x = false := by
  induction l with
  | nil => simp [List.find?] at h
  | cons x xs ih =>
    by_cases hx : p x = true
    · rw [List.find?_cons_of_pos _ hx] at h
      cases h
      exact ⟨hx, [], xs, rfl, by simp⟩
    · have hx' : p x = false := by
        cases hpx : p x
        · rfl
        · exact absurd hpx hx
      rw [List.find?_cons_of_neg _ (by simp [hx'])] at h
      obtain ⟨hpa, l1, l2, heq, hall⟩ := ih h
      refine ⟨hpa, x :: l1, l2, by simp [heq], ?_⟩
      intro y hy
      rcases List.mem_cons.mp hy with hyx | hyl1
      · cases hyx; exact hx'
      · exact hall y hyl1

/-- Claim C9: for every list of enumerated debug targets,
`connectToSuperhuman` selects the first context whose URL contains the
primary UI origin and whose type is `page`, never selecting a context
whose URL contains `background` or `serviceworker` even if it also
contains the origin substring, and it returns `none` (failure) exactly
when no such context exists. -/
theorem connectToSuperhuman_selects_main_page (targets : List CdpTarget) :
    (connectToSuperhuman targets = none ↔
      ∀ t ∈ targets, isSuperhumanMainPage t = false)
    ∧ (∀ t, connectToSuperhuman targets = some t →
        (strIncludes t.url "mail.superhuman.com" = true
          ∧ t.type = "page"
          ∧ strIncludes t.url "background" = false
          ∧ strIncludes t.url "serviceworker" = false)
        ∧ ∃ l1 l2, targets = l1 ++ t :: l2
            ∧ ∀ u ∈ l1, isSuperhumanMainPage u = false) := by
  constructor
  · constructor
    · intro h t ht
      have := List.find?_eq_none.mp h t ht
      cases hpt : isSuperhumanMainPage t
      · rfl
      · exact absurd hpt this
    · intro h
      apply List.find?_eq_none.mpr
      intro t ht
      simp [h t ht]
  · intro t h
    obtain ⟨hp, hfirst⟩ := find?_first_match isSuperhumanMainPage targets t h
    refine ⟨?_, hfirst⟩
    simp only [isSuperhumanMainPage, Bool.and_eq_true, Bool.not_eq_true',
      beq_iff_eq] at hp
    exact ⟨hp.1.1.1, hp.2, hp.1.1.2, hp.1.2⟩

/-- A background target whose url also contains the matching origin. -/
def bgTarget : CdpTarget :=
  { url := "https://mail.superhuman.com/background_page", type := "page", id := "bg" }

/-- The genuine main-page target. -/
def mainTarget : CdpTarget :=
  { url := "https://mail.superhuman.com/", type := "page", id := "main" }

/-- A service-worker target containing the origin substring. -/
def swTarget : CdpTarget :=
  { url := "https://mail.superhuman.com/serviceworker.js", type := "other", id := "sw" }

/-- Witness for claim C9: on a concrete target list in which a background
context with a matching origin precedes the main page, the selector skips
the background context and picks the main page. -/
theorem connectToSuperhuman_selects_main_page_witness :
    connectToSuperhuman [bgTarget, swTarget, mainTarget] = some mainTarget
    ∧ (strIncludes mainTarget.url "mail.superhuman.com" = true
        ∧ mainTarget.type = "page"
        ∧ strIncludes mainTarget.url "background" = false
        ∧ strIncludes mainTarget.url "serviceworker" = false) := by
  refine ⟨by decide, ?_⟩
  exact ((connectToSuperhuman_selects_main_page
    [bgTarget, swTarget, mainTarget]).2 mainTarget (by decide)).1

/-- `strStartsWith s pre` embeds the JavaScript `s.startsWith(pre)`. -/
def strStartsWith (s pre : String) : Bool :=
  pre.toList.isPrefixOf s.toList

/-- A recipient object on a draft (email plus display name). -/
structure Recipient where
  email : String
  name : String
deriving Repr, DecidableEq

/-- The in-memory draft object reachable as `ctrl.state.draft` inside the
target, with the fields read and written by `superhuman-api.ts`. -/
structure Draft where
  id : String
  subject : String
  body : String
  toRecipients : List Recipient
  cc : List Recipient
  bcc : List Recipient
  fromRecipient : Option Recipient
  dirty : Bool
deriving Repr, DecidableEq

/-- One compose controller stored under a draft key of
`ViewState._composeFormController`.  The `has*` flags record which of the
duck-typed controller methods exist in this target version; `savesIssued`
counts invocations of `_saveDraftAsync` (the remote persist effect). -/
structure ComposeCtrl where
  draft : Option Draft
  hasSetSubject : Bool
  hasUpdateDraft : Bool
  hasSaveDraftAsync : Bool
  savesIssued : Nat
deriving Repr, DecidableEq

/-- The compose-side environment: `ViewState._composeFormController`
modelled as an optional association list whose key order is the object's
key enumeration (insertion) order, as `Object.keys` returns it. -/
structure ComposeEnv where
  cfc : Option (List (String × ComposeCtrl))
deriving Repr, DecidableEq

/-- The plain-data snapshot returned by `getDraftState`. -/
structure DraftState where
  id : String
  subject : String
  body : String
  toEmails : List String
  cc : List String
  bcc : List String
  fromEmail : String
  isDirty : Bool
deriving Repr, DecidableEq

/-- The key scan shared by the compose operations:
`Object.keys(cfc).find(k => k.startsWith('draft'))`. -/
def findDraftKey (keys : List String) : Option String :=
  keys.find? (fun k => strStartsWith k "draft")

/-- JavaScript property access `cfc[draftKey]` over the association list. -/
def lookupCtrl (entries : List (String × ComposeCtrl)) (k : String) :
    Option ComposeCtrl :=
  (entries.find? (fun e => e.1 == k)).map Prod.snd

/-- Embeds the draft-key discovery step of `openCompose` in
`superhuman-api.ts`: `null` when the compose form controller is absent,
otherwise the first key starting with `draft` (or `null`). -/
def openCompose (env : ComposeEnv) : Option String :=
  match env.cfc with
  | none => none
  | some entries => findDraftKey (entries.map Prod.fst)

/-- The field marshaling of `getDraftState` from the remote draft object
to the plain `DraftState` returned to the caller. -/
def marshalDraft (d : Draft) : DraftState :=
  { id := d.id
    subject := d.subject
    body := d.body
    toEmails := d.toRecipients.map Recipient.email
    cc := d.cc.map Recipient.email
    bcc := d.bcc.map Recipient.email
    fromEmail := (d.fromRecipient.map Recipient.email).getD ""
    isDirty := d.dirty }

/-- Embeds `getDraftState` in `superhuman-api.ts`: find the controller
under the first `draft`-prefixed key and marshal `ctrl.state.draft`. -/
def getDraftState (env : ComposeEnv) : Option DraftState :=
  match env.cfc with
  | none => none
  | some entries =>
    match findDraftKey (entries.map Prod.fst) with
    | none => none
    | some draftKey =>
      match lookupCtrl entries draftKey with
      | none => none
      | some ctrl =>
        match ctrl.draft with
        | none => none
        | some d => some (marshalDraft d)

/-- Point update of the controller stored at key `k`. -/
def updateEntries (entries : List (String × ComposeCtrl)) (k : String)
    (f : ComposeCtrl → ComposeCtrl) : List (String × ComposeCtrl) :=
  entries.map (fun e => if e.1 == k then (e.1, f e.2) else e)

/-- Effect of the target-side `ctrl.setSubject(subject)` call on the
controller's draft (the target method itself is external to this
repository; its observable effect is setting the subject field). -/
def applySetSubject (subject : String) (ctrl : ComposeCtrl) : ComposeCtrl :=
  { ctrl with draft := ctrl.draft.map (fun d => { d with subject := subject }) }

/-- Embeds `setSubject` in `superhuman-api.ts`: `false` without any
mutation when the compose form controller, the draft key, the controller,
or its `setSubject` method is missing; otherwise the subject is set and
`true` is returned. -/
def setSubject (env : ComposeEnv) (subject : String) : Bool × ComposeEnv :=
  match env.cfc with
  | none => (false, env)
  | some entries =>
    match findDraftKey (entries.map Prod.fst) with
    | none => (false, env)
    | some draftKey =>
      match lookupCtrl entries draftKey with
      | none => (false, env)
      | some ctrl =>
        if ctrl.hasSetSubject then
          (true, ⟨some (updateEntries entries draftKey (applySetSubject subject))⟩)
        else (false, env)

/-- Effect of `ctrl._updateDraft({to: [...existingTo, newRecipient]})`. -/
def applyAddRecipient (email name : String) (ctrl : ComposeCtrl) : ComposeCtrl :=
  { ctrl with draft := ctrl.draft.map (fun d => { d with toRecipients := d.toRecipients ++ [⟨email, name⟩] }) }

/-- Embeds `addRecipient` in `superhuman-api.ts`: requires the compose
form controller, a `draft`-prefixed key, the controller's draft and its
`from` recipient (whose constructor builds the new recipient), and the
`_updateDraft` method; on any missing piece it returns `false` with no
mutation. -/
def addRecipient (env : ComposeEnv) (email name : String) : Bool × ComposeEnv :=
  match env.cfc with
  | none => (false, env)
  | some entries =>
    match findDraftKey (entries.map Prod.fst) with
    | none => (false, env)
    | some draftKey =>
      match lookupCtrl entries draftKey with
      | none => (false, env)
      | some ctrl =>
        match ctrl.draft with
        | none => (false, env)
        | some d =>
          match d.fromRecipient with
          | none => (false, env)
          | some _ =>
            if ctrl.hasUpdateDraft then
              (true, ⟨some (updateEntries entries draftKey (applyAddRecipient email name))⟩)
            else (false, env)

/-- Effect of `ctrl._updateDraft({body: html})`. -/
def applySetBody (html : String) (ctrl : ComposeCtrl) : ComposeCtrl :=
  { ctrl with draft := ctrl.draft.map (fun d => { d with body := html }) }

/-- Embeds `setBody` in `superhuman-api.ts`: `false` without mutation when
the compose form controller, the draft key, the controller or its
`_updateDraft` method is missing. -/
def setBody (env : ComposeEnv) (html : String) : Bool × ComposeEnv :=
  match env.cfc with
  | none => (false, env)
  | some entries =>
    match findDraftKey (entries.map Prod.fst) with
    | none => (false, env)
    | some draftKey =>
      match lookupCtrl entries draftKey with
      | none => (false, env)
      | some ctrl =>
        if ctrl.hasUpdateDraft then
          (true, ⟨some (updateEntries entries draftKey (applySetBody html))⟩)
        else (false, env)

/-- Effect of `ctrl._saveDraftAsync()`: one more persist request issued. -/
def applySaveDraft (ctrl : ComposeCtrl) : ComposeCtrl :=
  { ctrl with savesIssued := ctrl.savesIssued + 1 }

/-- Embeds `saveDraft` in `superhuman-api.ts`: `false` without mutation
when the compose form controller, the draft key, the controller or its
`_saveDraftAsync` method is missing. -/
def saveDraft (env : ComposeEnv) : Bool × ComposeEnv :=
  match env.cfc with
  | none => (false, env)
  | some entries =>
    match findDraftKey (entries.map Prod.fst) with
    | none => (false, env)
    | some draftKey =>
      match lookupCtrl entries draftKey with
      | none => (false, env)
      | some ctrl =>
        if ctrl.hasSaveDraftAsync then
          (true, ⟨some (updateEntries entries draftKey applySaveDraft)⟩)
        else (false, env)

/-- No compose form controller exists, or no key under it has the draft
prefix. -/
def noDraftOpen (env : ComposeEnv) : Prop :=
  env.cfc = none ∨ ∃ entries, env.cfc = some entries
    ∧ findDraftKey (entries.map Prod.fst) = none

/-- Claim C10: every call to `setSubject`, `addRecipient`, `setBody` or
`saveDraft` made while no compose form controller or no open draft key
exists returns `false` rather than failing, and performs no mutation of
the target's draft state (the environment is returned unchanged). -/
theorem compose_ops_no_draft_noop (env : ComposeEnv)
    (subject email name html : String) (h : noDraftOpen env) :
    setSubject env subject = (false, env)
    ∧ addRecipient env email name = (false, env)
    ∧ setBody env html = (false, env)
    ∧ saveDraft env = (false, env) := by
  rcases h with hnone | ⟨entries, hsome, hkey⟩
  · simp [setSubject, addRecipient, setBody, saveDraft, hnone]
  · simp [setSubject, addRecipient, setBody, saveDraft, hsome, hkey]

/-- Witness for claim C10: with a compose controller present but holding
no draft-prefixed key, all four field operations return `false` and leave
the environment untouched. -/
theorem compose_ops_no_draft_noop_witness :
    setSubject ⟨some [("other", ⟨none, true, true, true, 0⟩)]⟩ "s" = (false, ⟨some [("other", ⟨none, true, true, true, 0⟩)]⟩)
    ∧ addRecipient ⟨some [("other", ⟨none, true, true, true, 0⟩)]⟩ "a@b.c" "" = (false, ⟨some [("other", ⟨none, true, true, true, 0⟩)]⟩)
    ∧ setBody ⟨some [("other", ⟨none, true, true, true, 0⟩)]⟩ "<p>x</p>" = (false, ⟨some [("other", ⟨none, true, true, true, 0⟩)]⟩)
    ∧ saveDraft ⟨some [("other", ⟨none, true, true, true, 0⟩)]⟩ = (false, ⟨some [("other", ⟨none, true, true, true, 0⟩)]⟩) :=
  compose_ops_no_draft_noop ⟨some [("other", ⟨none, true, true, true, 0⟩)]⟩
    "s" "a@b.c" "" "<p>x</p>"
    (Or.inr ⟨[("other", ⟨none, true, true, true, 0⟩)], rfl, by decide⟩)

/-- Modelled from the spec: the "most recent matching key" tie-break rule
that the specification prescribes for draft-key discovery — the most
recently created (last, in the object's key insertion order) key carrying
the draft prefix.  Stated here only to compare the code's actual
selection against it. -/
def mostRecentDraftKey (keys : List String) : Option String :=
  (keys.filter (fun k => strStartsWith k "draft")).getLast?

/-- The controller of the first-opened (older) compose instance. -/
def olderCtrl : ComposeCtrl :=
  { draft := some
      { id := "draft00aaaa", subject := "older subject", body := "",
        toRecipients := [], cc := [], bcc := [], fromRecipient := none,
        dirty := false },
    hasSetSubject := true, hasUpdateDraft := true, hasSaveDraftAsync := true,
    savesIssued := 0 }

/-- The controller of the most recently opened compose instance. -/
def newerCtrl : ComposeCtrl :=
  { draft := some
      { id := "draft00bbbb", subject := "newer subject", body := "",
        toRecipients := [], cc := [], bcc := [], fromRecipient := none,
        dirty := false },
    hasSetSubject := true, hasUpdateDraft := true, hasSaveDraftAsync := true,
    savesIssued := 0 }

/-- A compose form controller holding two live draft keys, the second one
being the most recently opened. -/
def twoDraftEnv : ComposeEnv :=
  ⟨some [("draft00aaaa", olderCtrl), ("draft00bbbb", newerCtrl)]⟩

/-- Counterexample to claim C4: with two draft keys present,
`openCompose` and `getDraftState` return the first matching key
`draft00aaaa` (the older instance), not the most recent matching key
`draft00bbbb` that the claim prescribes. -/
theorem draftKey_counterexample :
    openCompose twoDraftEnv = some "draft00aaaa"
    ∧ mostRecentDraftKey ["draft00aaaa", "draft00bbbb"] = some "draft00bbbb"
    ∧ openCompose twoDraftEnv ≠ mostRecentDraftKey ["draft00aaaa", "draft00bbbb"]
    ∧ (getDraftState twoDraftEnv).map DraftState.subject = some "older subject" := by
  refine ⟨by decide, by decide, by decide, by decide⟩

/-- Claim C4 as amended: whenever draft keys exist under the compose form
controller, `openCompose` and `getDraftState` operate on the first key
matching the draft prefix in the controller's key enumeration order (the
oldest matching instance), not on the most recently opened one: the
selected key carries the prefix, every earlier key fails the prefix test,
and `getDraftState` reads the controller stored under that same first
matching key. -/
theorem draftKey_first_match (env : ComposeEnv)
    (entries : List (String × ComposeCtrl))
    (henv : env.cfc = some entries) (k : String)
    (hk : openCompose env = some k) :
    strStartsWith k "draft" = true
    ∧ (∃ ks1 ks2, entries.map Prod.fst = ks1 ++ k :: ks2
        ∧ ∀ k' ∈ ks1, strStartsWith k' "draft" = false)
    ∧ getDraftState env =
        ((lookupCtrl entries k).bind ComposeCtrl.draft).map marshalDraft := by
  have hfind : findDraftKey (entries.map Prod.fst) = some k := by
    simpa [openCompose, henv] using hk
  obtain ⟨hp, hdecomp⟩ := find?_first_match _ _ _ hfind
  refine ⟨hp, hdecomp, ?_⟩
  cases hl : lookupCtrl entries k with
  | none => simp [getDraftState, henv, hfind, hl]
  | some ctrl =>
    cases hd : ctrl.draft with
    | none => simp [getDraftState, henv, hfind, hl, hd]
    | some d => simp [getDraftState, henv, hfind, hl, hd]

/-- Witness for the amended claim C4: on the concrete two-draft
environment the selected key is the first matching one and
`getDraftState` reads that key's controller. -/
theorem draftKey_first_match_witness :
    strStartsWith "draft00aaaa" "draft" = true
    ∧ getDraftState twoDraftEnv =
        ((lookupCtrl [("draft00aaaa", olderCtrl), ("draft00bbbb", newerCtrl)]
          "draft00aaaa").bind ComposeCtrl.draft).map marshalDraft :=
  ⟨(draftKey_first_match twoDraftEnv
      [("draft00aaaa", olderCtrl), ("draft00bbbb", newerCtrl)] rfl
      "draft00aaaa" (by decide)).1,
   (draftKey_first_match twoDraftEnv
      [("draft00aaaa", olderCtrl), ("draft00bbbb", newerCtrl)] rfl
      "draft00aaaa" (by decide)).2.2⟩

/-- The CLI options read by the bulk-action path of `cli.ts` (`command`,
`threadIds`, `confirm` from `--yes`, `dryRun` from `--dry-run`, `json`). -/
structure CliOptions where
  command : String
  threadIds : List String
  confirm : Bool
  dryRun : Bool
  json : Bool
deriving Repr, DecidableEq

/-- Embeds `isBulkDestructiveCommand` in `cli.ts`. -/
def isBulkDestructiveCommand (command : String) : Bool :=
  command == "archive" || command == "delete" || command == "mark-read" ||
  command == "mark-unread" || command == "add-label" ||
  command == "remove-label" || command == "star" || command == "unstar" ||
  command == "snooze" || command == "unsnooze"

/-- The aggregate failure emitted by the confirmation gate: the refusal
message and the echoed thread identifier list (the JSON payload carries
`ok:false`, the message under `error`, and `threadIds`; it carries no
summary and no per-item results). -/
structure GateRefusal where
  message : String
  threadIds : List String
deriving Repr, DecidableEq

/-- Embeds `ensureBulkConfirmation` in `cli.ts`: `none` when the command
may proceed, `some refusal` when the hard gate trips (bulk destructive
command, more than one thread id, neither `--yes` nor `--dry-run`), in
which case the process exits before any session is opened. -/
def ensureBulkConfirmation (o : CliOptions) : Option GateRefusal :=
  if isBulkDestructiveCommand o.command = false ∨ o.threadIds.length ≤ 1 then
    none
  else if o.confirm = true ∨ o.dryRun = true then
    none
  else
    some ⟨"Refusing to run " ++ o.command ++ " on "
      ++ toString o.threadIds.length ++ " threads without --yes", o.threadIds⟩

/-- The `{success, error?}` result of one per-item action. -/
structure ThreadActionResult where
  success : Bool
  error : Option String
deriving Repr, DecidableEq

/-- One entry of the `results` array reported by the bulk driver.  The
real branch never sets `dryRun`; the dry-run branch tags every entry with
`dryRun: true`. -/
structure ItemResult where
  threadId : String
  success : Bool
  error : Option String
  dryRun : Bool
deriving Repr, DecidableEq

/-- The `summary` object of the bulk driver's JSON report. -/
structure BulkSummary where
  total : Nat
  successCount : Nat
  failCount : Nat
deriving Repr, DecidableEq

/-- Observable side effects of a bulk command run: opening the CDP
session (`checkConnection`) and running one per-item action
(`config.run(conn, threadId)`). -/
inductive Event where
  | sessionOpen
  | runAction (threadId : String)
deriving Repr, DecidableEq

/-- The outcome of a bulk command invocation: refused by the
confirmation gate, usage error (no thread ids), connection failure, or a
bulk report with overall `ok` flag, summary and per-item results. -/
inductive CommandOutcome where
  | gateRefused (refusal : GateRefusal)
  | usageError
  | connectFailed
  | bulkReport (ok : Bool) (summary : BulkSummary) (results : List ItemResult)
deriving Repr, DecidableEq

/-- The `failCount` the invocation reports, when it reports a summary at
all. -/
def outcomeFailCount : CommandOutcome → Option Nat
  | .bulkReport _ summary _ => some summary.failCount
  | _ => none

/-- The per-item result the sequential loop of `runThreadActionCommand`
records for one thread id. -/
def mkItem (act : String → ThreadActionResult) (threadId : String) : ItemResult :=
  if (act threadId).success then ⟨threadId, true, none, false⟩
  else ⟨threadId, false, (act threadId).error, false⟩

/-- The sequential per-item loop of `runThreadActionCommand`: every
thread id is acted on in input order, counting successes and failures and
recording one result per id regardless of individual failure. -/
def runItems (act : String → ThreadActionResult) :
    List String → Nat × Nat × List ItemResult
  | [] => (0, 0, [])
  | threadId :: rest =>
    let r := act threadId
    let item : ItemResult :=
      if r.success then ⟨threadId, true, none, false⟩
      else ⟨threadId, false, r.error, false⟩
    let (s, f, results) := runItems act rest
    (if r.success then s + 1 else s, if r.success then f else f + 1,
      item :: results)

/-- Embeds `runThreadActionCommand` in `cli.ts`: usage error on an empty
id list; on `--dry-run` a hypothetical all-success report with every
entry tagged `dryRun:true` and no session opened; otherwise open the
session and run the sequential loop, reporting `ok` as `failCount == 0`.
The per-item action is modelled as a function of the thread id (the
session is the single shared connection).  The first trace component
lists the side effects in order. -/
def runThreadActionCommand (o : CliOptions) (connectOk : Bool)
    (act : String → ThreadActionResult) : List Event × CommandOutcome :=
  if o.threadIds.length = 0 then
    ([], .usageError)
  else if o.dryRun then
    ([], .bulkReport true ⟨o.threadIds.length, o.threadIds.length, 0⟩
      (o.threadIds.map (fun threadId => ⟨threadId, true, none, true⟩)))
  else if connectOk = false then
    ([], .connectFailed)
  else
    let (s, f, results) := runItems act o.threadIds
    (Event.sessionOpen :: o.threadIds.map Event.runAction,
      .bulkReport (f == 0) ⟨o.threadIds.length, s, f⟩ results)

/-- Embeds the bulk path of `main` in `cli.ts`:
`ensureBulkConfirmation(options)` runs first (exiting with the aggregate
refusal before any session is opened), then the command dispatches to
`runThreadActionCommand`. -/
def runBulkCommand (o : CliOptions) (connectOk : Bool)
    (act : String → ThreadActionResult) : List Event × CommandOutcome :=
  match ensureBulkConfirmation o with
  | some refusal => ([], .gateRefused refusal)
  | none => runThreadActionCommand o connectOk act

/-- Unfolding of the sequential loop: the counts are the counts of
successful and failing ids and the results are the per-id records in
input order. -/
theorem runItems_eq (act : String → ThreadActionResult) (ids : List String) :
    runItems act ids =
      (ids.countP (fun i => (act i).success),
        ids.countP (fun i => !(act i).success),
        ids.map (mkItem act)) := by
  induction ids with
  | nil => simp [runItems]
  | cons i rest ih =>
    simp only [runItems, ih, List.countP_cons, List.map_cons, mkItem]
    cases h : (act i).success <;> simp [h]

/-- The successes and failures of a run partition the input list. -/
theorem countP_success_add_fail (act : String → ThreadActionResult)
    (ids : List String) :
    ids.countP (fun i => (act i).success)
      + ids.countP (fun i => !(act i).success) = ids.length := by
  induction ids with
  | nil => simp
  | cons i rest ih =>
    cases h : (act i).success <;> simp [List.countP_cons, h] <;> omega

/-- Each recorded result keeps its thread id. -/
theorem mkItem_threadId (act : String → ThreadActionResult) (i : String) :
    (mkItem act i).threadId = i := by
  unfold mkItem
  cases (act i).success <;> rfl

/-- A command and id list that trip the confirmation gate. -/
def gateOptions : CliOptions :=
  ⟨"archive", ["t1", "t2"], false, false, true⟩

/-- A per-item action that always succeeds. -/
def alwaysOkAction : String → ThreadActionResult := fun _ => ⟨true, none⟩

/-- Counterexample to claim C1: on a bulk destructive command with two
thread ids, no `--yes` and no `--dry-run`, the gate refuses with a single
aggregate failure, but that failure carries no `failCount` at all — in
particular no `failCount` equal to the number of identifiers.  The gate's
JSON payload holds only the refusal message and the echoed id list. -/
theorem bulkGate_counterexample :
    runBulkCommand gateOptions true alwaysOkAction =
      ([], .gateRefused
        ⟨"Refusing to run archive on 2 threads without --yes", ["t1", "t2"]⟩)
    ∧ outcomeFailCount (runBulkCommand gateOptions true alwaysOkAction).2 = none
    ∧ outcomeFailCount (runBulkCommand gateOptions true alwaysOkAction).2
        ≠ some gateOptions.threadIds.length := by
  refine ⟨by decide, by decide, by decide⟩

/-- Claim C1 as amended: for every bulk destructive command invoked with
more than one thread identifier, with confirm not set and dryRun not set,
no per-item action executes and no session is opened (the event trace is
empty, so the gate fires before any session), and the returned result is
the single aggregate gate failure naming the required `--yes` flag and
echoing the full identifier list; the refusal carries no `failCount`
summary (rather than a `failCount` equal to the number of identifiers). -/
theorem bulkGate_refusal_shape (o : CliOptions) (connectOk : Bool)
    (act : String → ThreadActionResult)
    (hcmd : isBulkDestructiveCommand o.command = true)
    (hn : 1 < o.threadIds.length) (hc : o.confirm = false)
    (hd : o.dryRun = false) :
    runBulkCommand o connectOk act =
      ([], .gateRefused ⟨"Refusing to run " ++ o.command ++ " on "
        ++ toString o.threadIds.length ++ " threads without --yes",
        o.threadIds⟩)
    ∧ outcomeFailCount (runBulkCommand o connectOk act).2 = none := by
  have h1 : ¬(isBulkDestructiveCommand o.command = false
      ∨ o.threadIds.length ≤ 1) := by
    push_neg
    exact ⟨by simp [hcmd], hn⟩
  have h2 : ¬(o.confirm = true ∨ o.dryRun = true) := by
    simp [hc, hd]
  have hgate : ensureBulkConfirmation o =
      some ⟨"Refusing to run " ++ o.command ++ " on "
        ++ toString o.threadIds.length ++ " threads without --yes",
        o.threadIds⟩ := by
    unfold ensureBulkConfirmation
    rw [if_neg h1, if_neg h2]
  refine ⟨?_, ?_⟩
  · simp [runBulkCommand, hgate]
  · simp [runBulkCommand, hgate, outcomeFailCount]

/-- Witness for the amended claim C1, at a concrete three-id delete. -/
theorem bulkGate_refusal_shape_witness :
    runBulkCommand ⟨"delete", ["a", "b", "c"], false, false, false⟩ true
        alwaysOkAction =
      ([], .gateRefused
        ⟨"Refusing to run delete on 3 threads without --yes",
          ["a", "b", "c"]⟩)
    ∧ outcomeFailCount (runBulkCommand
        ⟨"delete", ["a", "b", "c"], false, false, false⟩ true
        alwaysOkAction).2 = none :=
  bulkGate_refusal_shape ⟨"delete", ["a", "b", "c"], false, false, false⟩
    true alwaysOkAction (by decide) (by decide) rfl rfl

/-- Claim C2: every bulk run that passes the gating checks applies the
per-item action to each identifier sequentially in input order (the trace
opens the session once and then runs one action per id, in order), one
item's failure never aborts the remaining items (every id gets a recorded
result), and the report satisfies
`successCount + failCount = total = results.length` with the results in
input order. -/
theorem bulk_run_order_and_counts (o : CliOptions)
    (act : String → ThreadActionResult)
    (hgate : ensureBulkConfirmation o = none)
    (hne : o.threadIds ≠ []) (hd : o.dryRun = false) :
    (runBulkCommand o true act).1
        = Event.sessionOpen :: o.threadIds.map Event.runAction
    ∧ (runBulkCommand o true act).2
        = CommandOutcome.bulkReport
            (o.threadIds.countP (fun i => !(act i).success) == 0)
            ⟨o.threadIds.length,
              o.threadIds.countP (fun i => (act i).success),
              o.threadIds.countP (fun i => !(act i).success)⟩
            (o.threadIds.map (mkItem act))
    ∧ o.threadIds.countP (fun i => (act i).success)
        + o.threadIds.countP (fun i => !(act i).success)
        = o.threadIds.length
    ∧ (o.threadIds.map (mkItem act)).map ItemResult.threadId = o.threadIds
    ∧ (o.threadIds.map (mkItem act)).length = o.threadIds.length := by
  have hlen : ¬(o.threadIds.length = 0) := by
    simpa [List.length_eq_zero] using hne
  have hrun : runBulkCommand o true act = runThreadActionCommand o true act := by
    simp [runBulkCommand, hgate]
  rw [hrun]
  refine ⟨?_, ?_, countP_success_add_fail act o.threadIds, ?_, by simp⟩
  · simp [runThreadActionCommand, hlen, hd, runItems_eq]
  · simp [runThreadActionCommand, hlen, hd, runItems_eq]
  · rw [List.map_map]
    exact List.map_congr_left (fun i _ => mkItem_threadId act i)
      |>.trans (List.map_id o.threadIds) |>.symm ▸ rfl

/-- A per-item action failing exactly on id `"bad"`. -/
def mixedAction : String → ThreadActionResult :=
  fun i => if i == "bad" then ⟨false, some "boom"⟩ else ⟨true, none⟩

/-- Witness for claim C2: a three-id run with one failing item acts on
all three ids in order and reports `1 + 2 = 3` with ordered results. -/
theorem bulk_run_order_and_counts_witness :
    (runBulkCommand ⟨"archive", ["x", "bad", "y"], true, false, false⟩ true
        mixedAction).1
      = Event.sessionOpen :: (["x", "bad", "y"].map Event.runAction)
    ∧ ["x", "bad", "y"].countP (fun i => (mixedAction i).success)
        + ["x", "bad", "y"].countP (fun i => !(mixedAction i).success) = 3 :=
  have h := bulk_run_order_and_counts
    ⟨"archive", ["x", "bad", "y"], true, false, false⟩ mixedAction
    (by decide) (by decide) rfl
  ⟨h.1, h.2.2.1⟩

/-- The per-item results the invocation reports (empty when it reports
none). -/
def outcomeResults : CommandOutcome → List ItemResult
  | .bulkReport _ _ results => results
  | _ => []

/-- Claim C3: every bulk operation invoked with `dryRun = true` (over a
non-empty id list) executes no per-item action and opens no session (the
event trace is empty), yet reports `successCount` equal to the number of
identifiers and `failCount` zero, with every per-item result tagged
`dryRun: true`. -/
theorem bulk_dryRun_report (o : CliOptions) (connectOk : Bool)
    (act : String → ThreadActionResult)
    (hdry : o.dryRun = true) (hne : o.threadIds ≠ []) :
    runBulkCommand o connectOk act =
      ([], CommandOutcome.bulkReport true
        ⟨o.threadIds.length, o.threadIds.length, 0⟩
        (o.threadIds.map (fun threadId => ⟨threadId, true, none, true⟩)))
    ∧ (∀ r ∈ outcomeResults (runBulkCommand o connectOk act).2, r.dryRun = true)
    ∧ outcomeFailCount (runBulkCommand o connectOk act).2 = some 0 := by
  have hlen : ¬(o.threadIds.length = 0) := by
    simpa [List.length_eq_zero] using hne
  have hgate : ensureBulkConfirmation o = none := by
    unfold ensureBulkConfirmation
    by_cases h1 : isBulkDestructiveCommand o.command = false
        ∨ o.threadIds.length ≤ 1
    · rw [if_pos h1]
    · rw [if_neg h1, if_pos (Or.inr hdry)]
  have hmain : runBulkCommand o connectOk act =
      ([], CommandOutcome.bulkReport true
        ⟨o.threadIds.length, o.threadIds.length, 0⟩
        (o.threadIds.map (fun threadId => ⟨threadId, true, none, true⟩))) := by
    simp [runBulkCommand, hgate, runThreadActionCommand, hlen, hdry]
  refine ⟨hmain, ?_, ?_⟩
  · rw [hmain]
    intro r hr
    simp only [outcomeResults] at hr
    obtain ⟨i, _, rfl⟩ := List.mem_map.mp hr
    rfl
  · rw [hmain]
    rfl

/-- Witness for claim C3: a two-id dry-run archive with an unreachable
connection still reports two hypothetical successes and no session. -/
theorem bulk_dryRun_report_witness :
    runBulkCommand ⟨"archive", ["a", "b"], false, true, true⟩ false
        mixedAction =
      ([], CommandOutcome.bulkReport true ⟨2, 2, 0⟩
        [⟨"a", true, none, true⟩, ⟨"b", true, none, true⟩]) :=
  (bulk_dryRun_report ⟨"archive", ["a", "b"], false, true, true⟩ false
    mixedAction rfl (by decide)).1

/-- The shapes a remote `downloadAttachment` response can take, as the
duck-typed marshaling code in `attachments.ts` distinguishes them: an
`ArrayBuffer` (or buffer-like value with a `byteLength`), a base64
string, an object whose `data` is a buffer, an object whose `data` is a
string with an optional `size`, a `Blob`, or anything else. -/
inductive DlResponse where
  | buffer (b64 : String) (byteLength : Nat)
  | plainString (s : String)
  | dataBuffer (b64 : String) (byteLength : Nat)
  | dataOther (data : String) (size : Option Nat)
  | blob (b64 : String) (size : Nat)
  | unexpected (typeName : String)
deriving Repr, DecidableEq

/-- The Microsoft Graph service object obtained from `di.get('msgraph')`,
described by which of its duck-typed methods exist in this target version
and by the response its download method yields. -/
structure MsGraphSvc where
  hasUpdateMessages : Bool
  hasPatchMessages : Bool
  hasMarkMessagesAsRead : Bool
  hasMarkMessagesAsUnread : Bool
  hasUpdateMessage : Bool
  hasPatchMessage : Bool
  hasDownloadAttachment : Bool
  downloadResponse : DlResponse
deriving Repr, DecidableEq

/-- The Gmail service object obtained from `di.get('gmail')`. -/
structure GmailSvc where
  hasChangeLabelsPerThread : Bool
  hasDownloadAttachment : Bool
  downloadResponse : DlResponse
deriving Repr, DecidableEq

/-- The dependency-lookup container `window.GoogleAccount.di`: the
account-kind flag and the two per-account service objects. -/
structure Di where
  isMicrosoft : Bool
  msgraph : Option MsGraphSvc
  gmail : Option GmailSvc
deriving Repr, DecidableEq

/-- One remote service-method invocation issued by the embedded
expressions (the observable remote mutation/download calls). -/
inductive RemoteCall where
  | msUpdateMessages (updates : List (String × Bool))
  | msPatchMessages (updates : List (String × Bool))
  | msMarkMessagesAsRead (messageIds : List String)
  | msMarkMessagesAsUnread (messageIds : List String)
  | msUpdateMessage (messageId : String) (isRead : Bool)
  | msPatchMessage (messageId : String) (isRead : Bool)
  | gmailChangeLabels (threadId : String) (addLabels : List String)
      (removeLabels : List String)
  | gmailDownload (threadId messageId attachmentId mimeType : String)
  | msgraphDownload (messageId attachmentId : String)
deriving Repr, DecidableEq

/-- The `_threadModel` of a thread in the identity map. -/
structure ThreadModel where
  labelIds : Option (List String)
  messageIds : List String
deriving Repr, DecidableEq

/-- A thread object held in `GoogleAccount.threads.identityMap`. -/
structure ThreadObj where
  threadModel : Option ThreadModel
deriving Repr, DecidableEq

/-- The account-side remote environment read by `read-status.ts` and
`attachments.ts`: the DI container and the thread identity map. -/
structure AccountEnv where
  di : Option Di
  threads : List (String × ThreadObj)
deriving Repr, DecidableEq

/-- `ga.threads.identityMap.get(threadId)`. -/
def lookupThread (threads : List (String × ThreadObj)) (threadId : String) :
    Option ThreadObj :=
  (threads.find? (fun e => e.1 == threadId)).map Prod.snd

/-- The local-state update `model.labelIds = ...` applied to the thread
stored under `threadId`. -/
def setThreadLabels (env : AccountEnv) (threadId : String)
    (labels : List String) : AccountEnv :=
  { env with threads := env.threads.map (fun e =>
      if e.1 == threadId then
        (e.1, ⟨e.2.threadModel.map (fun m => { m with labelIds := some labels })⟩)
      else e) }

/-- The `{success, error?}` value marshaled back by the read-status
expressions. -/
structure ReadStatusResult where
  success : Bool
  error : Option String
deriving Repr, DecidableEq

/-- The Microsoft fallback chain of `markAsRead` in `read-status.ts`:
try `updateMessages`, then `patchMessages`, then `markMessagesAsRead`,
then per-message `updateMessage`/`patchMessage`, invoking only the first
entry point that exists. -/
def msReadCalls (g : MsGraphSvc) (messageIds : List String) :
    List RemoteCall :=
  if g.hasUpdateMessages then
    [.msUpdateMessages (messageIds.map (fun mid => (mid, true)))]
  else if g.hasPatchMessages then
    [.msPatchMessages (messageIds.map (fun mid => (mid, true)))]
  else if g.hasMarkMessagesAsRead then
    [.msMarkMessagesAsRead messageIds]
  else
    messageIds.flatMap (fun mid =>
      if g.hasUpdateMessage then [.msUpdateMessage mid true]
      else if g.hasPatchMessage then [.msPatchMessage mid true]
      else [])

/-- The Microsoft fallback chain of `markAsUnread` in `read-status.ts`:
`updateMessages`, `patchMessages`, `markMessagesAsUnread`, then
per-message `updateMessage`/`patchMessage`, all with `isRead: false`. -/
def msUnreadCalls (g : MsGraphSvc) (messageIds : List String) :
    List RemoteCall :=
  if g.hasUpdateMessages then
    [.msUpdateMessages (messageIds.map (fun mid => (mid, false)))]
  else if g.hasPatchMessages then
    [.msPatchMessages (messageIds.map (fun mid => (mid, false)))]
  else if g.hasMarkMessagesAsUnread then
    [.msMarkMessagesAsUnread messageIds]
  else
    messageIds.flatMap (fun mid =>
      if g.hasUpdateMessage then [.msUpdateMessage mid false]
      else if g.hasPatchMessage then [.msPatchMessage mid false]
      else [])

/-- Embeds `markAsRead` in `read-status.ts`.  Returns the marshaled
result, the remote service calls issued, and the updated environment
(the local `model.labelIds` feedback).  The already-read short circuit
(`!model.labelIds || !model.labelIds.includes('UNREAD')`) returns
success with no call and no mutation. -/
def markAsRead (env : AccountEnv) (threadId : String) :
    ReadStatusResult × List RemoteCall × AccountEnv :=
  match env.di with
  | none => (⟨false, some "DI container not found"⟩, [], env)
  | some di =>
    match lookupThread env.threads threadId with
    | none => (⟨false, some "Thread not found"⟩, [], env)
    | some thread =>
      match thread.threadModel with
      | none => (⟨false, some "Thread model not found"⟩, [], env)
      | some model =>
        match model.labelIds with
        | none => (⟨true, none⟩, [], env)
        | some labels =>
          if labels.contains "UNREAD" = false then
            (⟨true, none⟩, [], env)
          else if di.isMicrosoft then
            match di.msgraph with
            | none => (⟨false, some "msgraph service not found"⟩, [], env)
            | some g =>
              if model.messageIds.length = 0 then
                (⟨false, some "No messages found in thread"⟩, [], env)
              else
                (⟨true, none⟩, msReadCalls g model.messageIds,
                  setThreadLabels env threadId
                    (labels.filter (fun l => l != "UNREAD")))
          else
            match di.gmail with
            | none => (⟨false, some "gmail service not found"⟩, [], env)
            | some gm =>
              if gm.hasChangeLabelsPerThread then
                (⟨true, none⟩, [.gmailChangeLabels threadId [] ["UNREAD"]],
                  setThreadLabels env threadId
                    (labels.filter (fun l => l != "UNREAD")))
              else
                (⟨false, some "gmail.changeLabelsPerThread is not a function"⟩,
                  [], env)

/-- The local-state push of `markAsUnread`: create the label list when
absent and append `UNREAD` when missing. -/
def unreadPush (labels : List String) : List String :=
  if labels.contains "UNREAD" then labels else labels ++ ["UNREAD"]

/-- Embeds `markAsUnread` in `read-status.ts`.  The already-unread short
circuit (`model.labelIds && model.labelIds.includes('UNREAD')`) returns
success with no call and no mutation. -/
def markAsUnread (env : AccountEnv) (threadId : String) :
    ReadStatusResult × List RemoteCall × AccountEnv :=
  match env.di with
  | none => (⟨false, some "DI container not found"⟩, [], env)
  | some di =>
    match lookupThread env.threads threadId with
    | none => (⟨false, some "Thread not found"⟩, [], env)
    | some thread =>
      match thread.threadModel with
      | none => (⟨false, some "Thread model not found"⟩, [], env)
      | some model =>
        if (model.labelIds.getD []).contains "UNREAD" then
          (⟨true, none⟩, [], env)
        else if di.isMicrosoft then
          match di.msgraph with
          | none => (⟨false, some "msgraph service not found"⟩, [], env)
          | some g =>
            if model.messageIds.length = 0 then
              (⟨false, some "No messages found in thread"⟩, [], env)
            else
              (⟨true, none⟩, msUnreadCalls g model.messageIds,
                setThreadLabels env threadId
                  (unreadPush (model.labelIds.getD [])))
        else
          match di.gmail with
          | none => (⟨false, some "gmail service not found"⟩, [], env)
          | some gm =>
            if gm.hasChangeLabelsPerThread then
              (⟨true, none⟩, [.gmailChangeLabels threadId ["UNREAD"] []],
                setThreadLabels env threadId
                  (unreadPush (model.labelIds.getD [])))
            else
              (⟨false, some "gmail.changeLabelsPerThread is not a function"⟩,
                [], env)

/-- Claim C7: invoking `markAsRead` twice in succession on a thread that
is already read reports success both times, and neither invocation issues
any remote call or mutates any state (the short circuit fires before any
gmail or msgraph method); symmetrically for `markAsUnread` on an
already-unread thread. -/
theorem markRead_idempotent (env : AccountEnv) (threadId : String)
    (di : Di) (t : ThreadObj) (m : ThreadModel)
    (hdi : env.di = some di)
    (ht : lookupThread env.threads threadId = some t)
    (hm : t.threadModel = some m) :
    ((m.labelIds = none
        ∨ ∃ ls, m.labelIds = some ls ∧ ls.contains "UNREAD" = false) →
      markAsRead env threadId = (⟨true, none⟩, [], env)
      ∧ markAsRead (markAsRead env threadId).2.2 threadId
          = (⟨true, none⟩, [], env))
    ∧ ((∃ ls, m.labelIds = some ls ∧ ls.contains "UNREAD" = true) →
      markAsUnread env threadId = (⟨true, none⟩, [], env)
      ∧ markAsUnread (markAsUnread env threadId).2.2 threadId
          = (⟨true, none⟩, [], env)) := by
  constructor
  · rintro (hnone | ⟨ls, hls, hun⟩)
    · have h : markAsRead env threadId = (⟨true, none⟩, [], env) := by
        simp [markAsRead, hdi, ht, hm, hnone]
      refine ⟨h, ?_⟩
      rw [h]
      exact h
    · have hmem : "UNREAD" ∉ ls := by simpa using hun
      have h : markAsRead env threadId = (⟨true, none⟩, [], env) := by
        simp [markAsRead, hdi, ht, hm, hls, hmem]
      refine ⟨h, ?_⟩
      rw [h]
      exact h
  · rintro ⟨ls, hls, hun⟩
    have hmem : "UNREAD" ∈ ls := by simpa using hun
    have h : markAsUnread env threadId = (⟨true, none⟩, [], env) := by
      simp [markAsUnread, hdi, ht, hm, hls, hmem]
    refine ⟨h, ?_⟩
    rw [h]
    exact h

/-- An account with a gmail service and one already-read thread. -/
def readDi : Di := ⟨false, none, some ⟨true, false, .unexpected "undefined"⟩⟩

/-- The already-read thread object (`labelIds` without `UNREAD`). -/
def readThreadObj : ThreadObj := ⟨some ⟨some ["INBOX"], ["m1"]⟩⟩

/-- Environment holding the already-read thread under id `t1`. -/
def readEnv : AccountEnv := ⟨some readDi, [("t1", readThreadObj)]⟩

/-- Witness for claim C7: both successive `markAsRead` calls on the
concrete already-read thread succeed with no remote call. -/
theorem markRead_idempotent_witness :
    markAsRead readEnv "t1" = (⟨true, none⟩, [], readEnv)
    ∧ markAsRead (markAsRead readEnv "t1").2.2 "t1"
        = (⟨true, none⟩, [], readEnv) :=
  (markRead_idempotent readEnv "t1" readDi readThreadObj
      ⟨some ["INBOX"], ["m1"]⟩ rfl rfl rfl).1
    (Or.inr ⟨["INBOX"], rfl, by decide⟩)

/-- Claim C5 as amended: for a mark-as-read operation on a Microsoft
account (thread present and unread, msgraph service present, messages
present), the candidate remote entry points are attempted in the fixed
priority order `updateMessages`, `patchMessages`, `markMessagesAsRead`,
then per-message `updateMessage`/`patchMessage`, invoking exactly the
first one that exists; with a secondary entry point the operation still
reports `success:true` — but the returned result does not record which
entry point was used (it carries only the success flag and the optional
error). -/
theorem markAsRead_fallback_order (env : AccountEnv) (threadId : String)
    (di : Di) (g : MsGraphSvc) (t : ThreadObj) (m : ThreadModel)
    (ls : List String)
    (hdi : env.di = some di) (hms : di.isMicrosoft = true)
    (hg : di.msgraph = some g)
    (ht : lookupThread env.threads threadId = some t)
    (hm : t.threadModel = some m)
    (hls : m.labelIds = some ls) (hun : ls.contains "UNREAD" = true)
    (hmsg : m.messageIds ≠ []) :
    (markAsRead env threadId).1 = ⟨true, none⟩
    ∧ (markAsRead env threadId).2.1 = msReadCalls g m.messageIds
    ∧ (g.hasUpdateMessages = true →
        msReadCalls g m.messageIds
          = [.msUpdateMessages (m.messageIds.map (fun mid => (mid, true)))])
    ∧ (g.hasUpdateMessages = false → g.hasPatchMessages = true →
        msReadCalls g m.messageIds
          = [.msPatchMessages (m.messageIds.map (fun mid => (mid, true)))])
    ∧ (g.hasUpdateMessages = false → g.hasPatchMessages = false →
        g.hasMarkMessagesAsRead = true →
        msReadCalls g m.messageIds = [.msMarkMessagesAsRead m.messageIds])
    ∧ (g.hasUpdateMessages = false → g.hasPatchMessages = false →
        g.hasMarkMessagesAsRead = false →
        msReadCalls g m.messageIds = m.messageIds.flatMap (fun mid =>
          if g.hasUpdateMessage then [.msUpdateMessage mid true]
          else if g.hasPatchMessage then [.msPatchMessage mid true]
          else [])) := by
  have hmem : "UNREAD" ∈ ls := by simpa using hun
  have hrun : markAsRead env threadId =
      (⟨true, none⟩, msReadCalls g m.messageIds,
        setThreadLabels env threadId
          (ls.filter (fun l => l != "UNREAD"))) := by
    simp [markAsRead, hdi, ht, hm, hls, hmem, hms, hg, hmsg]
  refine ⟨by rw [hrun], by rw [hrun], ?_, ?_, ?_, ?_⟩
  · intro h1
    simp [msReadCalls, h1]
  · intro h1 h2
    simp [msReadCalls, h1, h2]
  · intro h1 h2 h3
    simp [msReadCalls, h1, h2, h3]
  · intro h1 h2 h3
    simp [msReadCalls, h1, h2, h3]

/-- The thread model of an unread single-message thread. -/
def unreadModel : ThreadModel := ⟨some ["UNREAD"], ["m1"]⟩

/-- A target version exposing the primary `updateMessages` entry point. -/
def primaryGraph : MsGraphSvc :=
  ⟨true, false, false, false, false, false, false, .unexpected "undefined"⟩

/-- A target version lacking the primary entry point but exposing the
secondary `patchMessages`. -/
def secondaryGraph : MsGraphSvc :=
  ⟨false, true, false, false, false, false, false, .unexpected "undefined"⟩

/-- Microsoft account whose msgraph exposes the primary entry point. -/
def envPrimary : AccountEnv :=
  ⟨some ⟨true, some primaryGraph, none⟩, [("t1", ⟨some unreadModel⟩)]⟩

/-- Microsoft account whose msgraph exposes only the secondary entry
point. -/
def envSecondary : AccountEnv :=
  ⟨some ⟨true, some secondaryGraph, none⟩, [("t1", ⟨some unreadModel⟩)]⟩

/-- Counterexample to claim C5: against a target lacking the primary
entry point the operation succeeds through the secondary one, but the
operation's result is byte-identical to the primary-path result — the
result records nothing about which entry point was used, contrary to the
claim's "records which entry point was used". -/
theorem markAsRead_no_entry_point_record :
    (markAsRead envPrimary "t1").2.1 = [.msUpdateMessages [("m1", true)]]
    ∧ (markAsRead envSecondary "t1").2.1 = [.msPatchMessages [("m1", true)]]
    ∧ (markAsRead envPrimary "t1").2.1 ≠ (markAsRead envSecondary "t1").2.1
    ∧ (markAsRead envPrimary "t1").1 = ⟨true, none⟩
    ∧ (markAsRead envSecondary "t1").1 = ⟨true, none⟩
    ∧ (markAsRead envPrimary "t1").1 = (markAsRead envSecondary "t1").1 := by
  refine ⟨by decide, by decide, by decide, by decide, by decide, by decide⟩

/-- Witness for the amended claim C5: on the concrete secondary-only
target the operation reports success and invokes exactly the secondary
entry point. -/
theorem markAsRead_fallback_order_witness :
    (markAsRead envSecondary "t1").1 = ⟨true, none⟩
    ∧ msReadCalls secondaryGraph ["m1"] = [.msPatchMessages [("m1", true)]] :=
  have h := markAsRead_fallback_order envSecondary "t1"
    ⟨true, some secondaryGraph, none⟩ secondaryGraph ⟨some unreadModel⟩
    unreadModel ["UNREAD"] rfl rfl rfl rfl rfl rfl (by decide) (by decide)
  ⟨h.1, h.2.2.2.1 rfl rfl⟩

/-- The `{data, size}` content returned by `downloadAttachment`. -/
structure AttachmentContent where
  data : String
  size : Nat
deriving Repr, DecidableEq

/-- The plain value marshaled back from the remote download expression:
either the `{data, size}` content or an `{error}` object (the remote
expression catches all exceptions and returns error objects). -/
inductive RemoteDlValue where
  | content (data : String) (size : Nat)
  | err (msg : String)
deriving Repr, DecidableEq

/-- The Gmail-branch response marshaling of `downloadAttachment` in
`attachments.ts`: buffer, string, `data` object (with the JavaScript
`response.size || response.data.length` fallback, where a zero size is
falsy), blob, else an unexpected-format error. -/
def marshalGmailResponse (r : DlResponse) : RemoteDlValue :=
  match r with
  | .buffer b64 byteLength => .content b64 byteLength
  | .plainString s => .content s s.length
  | .dataBuffer b64 byteLength => .content b64 byteLength
  | .dataOther d sz =>
    .content d (match sz with
      | some n => if n = 0 then d.length else n
      | none => d.length)
  | .blob b64 size => .content b64 size
  | .unexpected typeName =>
    .err ("Unexpected Gmail response format: " ++ typeName)

/-- The Microsoft-branch response marshaling of `downloadAttachment` in
`attachments.ts` — textually duplicated from the Gmail branch in the
source, differing only in the unexpected-format message. -/
def marshalMsgraphResponse (r : DlResponse) : RemoteDlValue :=
  match r with
  | .buffer b64 byteLength => .content b64 byteLength
  | .plainString s => .content s s.length
  | .dataBuffer b64 byteLength => .content b64 byteLength
  | .dataOther d sz =>
    .content d (match sz with
      | some n => if n = 0 then d.length else n
      | none => d.length)
  | .blob b64 size => .content b64 size
  | .unexpected typeName =>
    .err ("Unexpected msgraph response format: " ++ typeName)

/-- The msgraph fallback of the remote download expression: used when no
gmail service with a `downloadAttachment` method exists. -/
def msgraphDownloadFallback (di : Di) (messageId attachmentId : String) :
    RemoteDlValue × List RemoteCall :=
  match di.msgraph with
  | some g =>
    if g.hasDownloadAttachment then
      (marshalMsgraphResponse g.downloadResponse,
        [.msgraphDownload messageId attachmentId])
    else (.err "No download service available", [])
  | none => (.err "No download service available", [])

/-- The remote expression of `downloadAttachment` in `attachments.ts`:
try the gmail service first (`gmail && typeof gmail.downloadAttachment
=== 'function'`), then the msgraph service, else report that no download
service is available. -/
def remoteDownloadExpr (odi : Option Di)
    (threadId messageId attachmentId mimeType : String) :
    RemoteDlValue × List RemoteCall :=
  match odi with
  | none => (.err "No download service available", [])
  | some di =>
    match di.gmail with
    | some gm =>
      if gm.hasDownloadAttachment then
        (marshalGmailResponse gm.downloadResponse,
          [.gmailDownload threadId messageId attachmentId mimeType])
      else msgraphDownloadFallback di messageId attachmentId
    | none => msgraphDownloadFallback di messageId attachmentId

/-- The outer result handling of `downloadAttachment` in
`attachments.ts`: `if (value.error) throw new Error(value.error)` —
an error value is rethrown as an exception (`Except.error`), content is
returned as the `{data, size}` result. -/
def finalizeDl : RemoteDlValue → Except String AttachmentContent
  | .err e => .error e
  | .content d s => .ok ⟨d, s⟩

/-- Embeds `downloadAttachment` in `attachments.ts`: run the remote
expression, then rethrow a reported error or return the content. -/
def downloadAttachment (env : AccountEnv)
    (messageId attachmentId threadId mimeType : String) :
    Except String AttachmentContent × List RemoteCall :=
  ((finalizeDl (remoteDownloadExpr env.di threadId messageId attachmentId
      mimeType).1),
    (remoteDownloadExpr env.di threadId messageId attachmentId mimeType).2)

/-- True exactly when the call tears out of `downloadAttachment` as a
thrown exception rather than a returned result. -/
def throwsError : Except String AttachmentContent → Bool
  | .error _ => true
  | .ok _ => false

/-- An account whose DI container offers neither download service. -/
def noSvcEnv : AccountEnv := ⟨some ⟨false, none, none⟩, []⟩

/-- An account whose gmail service returns an unexpected response shape,
so the remote expression reports an error value. -/
def gmailWeirdEnv : AccountEnv :=
  ⟨some ⟨false, none, some ⟨true, true, .unexpected "object"⟩⟩, []⟩

/-- Counterexample to claim C6: when the remote expression reports an
error — no service available, or an unexpected response format — the
outer `downloadAttachment` does not return a result: it rethrows the
error as an exception, contradicting the claim that Gateway errors are
never propagated as uncaught exceptions. -/
theorem downloadAttachment_throws_counterexample :
    (downloadAttachment noSvcEnv "m1" "a1" "" "").1
      = Except.error "No download service available"
    ∧ throwsError (downloadAttachment noSvcEnv "m1" "a1" "" "").1 = true
    ∧ (downloadAttachment gmailWeirdEnv "m1" "a1" "" "").1
      = Except.error "Unexpected Gmail response format: object"
    ∧ throwsError (downloadAttachment gmailWeirdEnv "m1" "a1" "" "").1
      = true := ⟨rfl, rfl, rfl, rfl⟩

/-- Claim C6 as amended: the remote expression itself catches all
target-side exceptions and reports them as tagged error values, but
`downloadAttachment` then maps an error value to a thrown exception
(`Except.error`) rather than returning a result — callers must catch it;
only on a content value does it return the `{data, size}` result. -/
theorem downloadAttachment_error_propagation (env : AccountEnv)
    (messageId attachmentId threadId mimeType : String) :
    (∀ e, (remoteDownloadExpr env.di threadId messageId attachmentId
        mimeType).1 = .err e →
      (downloadAttachment env messageId attachmentId threadId mimeType).1
        = Except.error e)
    ∧ (∀ d s, (remoteDownloadExpr env.di threadId messageId attachmentId
        mimeType).1 = .content d s →
      (downloadAttachment env messageId attachmentId threadId mimeType).1
        = Except.ok ⟨d, s⟩) := by
  constructor
  · intro e he
    simp [downloadAttachment, he, finalizeDl]
  · intro d s hds
    simp [downloadAttachment, hds, finalizeDl]

/-- An account whose gmail download returns a plain buffer. -/
def gmailBufferEnv : AccountEnv :=
  ⟨some ⟨false, none, some ⟨true, true, .buffer "QUJDRA==" 4⟩⟩, []⟩

/-- Witness for the amended claim C6: a successful gmail download on the
concrete environment returns the `{data, size}` result. -/
theorem downloadAttachment_error_propagation_witness :
    (downloadAttachment gmailBufferEnv "m1" "a1" "t1" "").1
      = Except.ok ⟨"QUJDRA==", 4⟩ :=
  (downloadAttachment_error_propagation gmailBufferEnv "m1" "a1" "t1" "").2
    "QUJDRA==" 4 rfl

/-- A Microsoft-flagged DI container that nevertheless offers a gmail
service with a `downloadAttachment` method, alongside msgraph. -/
def bothSvcMsDi : Di :=
  ⟨true,
    some ⟨false, false, false, false, false, false, true, .buffer "TVNHUkFQSA==" 7⟩,
    some ⟨true, true, .buffer "R01BSUw=" 5⟩⟩

/-- The environment around `bothSvcMsDi`. -/
def bothSvcMsEnv : AccountEnv := ⟨some bothSvcMsDi, []⟩

/-- Counterexample to claim C8: `downloadAttachment` never consults the
`isMicrosoft` flag — with `isMicrosoft = true` but a gmail service
exposing `downloadAttachment`, the call dispatches to the Gmail method
set, not the Microsoft one.  Dispatch is by service availability, not by
the account-kind check the claim describes. -/
theorem download_dispatch_counterexample :
    bothSvcMsDi.isMicrosoft = true
    ∧ (downloadAttachment bothSvcMsEnv "m1" "a1" "t1" "text/plain").2
        = [.gmailDownload "t1" "m1" "a1" "text/plain"]
    ∧ (downloadAttachment bothSvcMsEnv "m1" "a1" "t1" "text/plain").2
        ≠ [.msgraphDownload "m1" "a1"] := by
  refine ⟨rfl, rfl, by decide⟩

/-- Claim C8 as amended: `downloadAttachment` dispatches by service
availability rather than by an `isMicrosoft` check — the Gmail method set
is used whenever the gmail service exposes `downloadAttachment`
(regardless of the account-kind flag), otherwise the Microsoft method set
when msgraph exposes it; the two branches invoke disjoint method sets
(exactly one call, to the branch's own method), and both marshal their
responses to the identical `{data, size}` shape. -/
theorem download_dispatch_by_availability (env : AccountEnv) (di : Di)
    (threadId messageId attachmentId mimeType : String)
    (hdi : env.di = some di) :
    (∀ gm, di.gmail = some gm → gm.hasDownloadAttachment = true →
      (downloadAttachment env messageId attachmentId threadId mimeType).2
          = [.gmailDownload threadId messageId attachmentId mimeType]
        ∧ (downloadAttachment env messageId attachmentId threadId
            mimeType).1 = finalizeDl (marshalGmailResponse gm.downloadResponse))
    ∧ ((di.gmail = none
        ∨ ∃ gm, di.gmail = some gm ∧ gm.hasDownloadAttachment = false) →
      ∀ g, di.msgraph = some g → g.hasDownloadAttachment = true →
      (downloadAttachment env messageId attachmentId threadId mimeType).2
          = [.msgraphDownload messageId attachmentId]
        ∧ (downloadAttachment env messageId attachmentId threadId
            mimeType).1 = finalizeDl (marshalMsgraphResponse g.downloadResponse))
    ∧ (∀ r d s, marshalGmailResponse r = .content d s
        ↔ marshalMsgraphResponse r = .content d s) := by
  refine ⟨?_, ?_, ?_⟩
  · intro gm hgm hdl
    constructor
    · simp [downloadAttachment, remoteDownloadExpr, hdi, hgm, hdl]
    · simp [downloadAttachment, remoteDownloadExpr, hdi, hgm, hdl]
  · rintro (hnone | ⟨gm, hgm, hdl0⟩) g hg hdl
    · constructor
      · simp [downloadAttachment, remoteDownloadExpr, hdi, hnone,
          msgraphDownloadFallback, hg, hdl]
      · simp [downloadAttachment, remoteDownloadExpr, hdi, hnone,
          msgraphDownloadFallback, hg, hdl]
    · constructor
      · simp [downloadAttachment, remoteDownloadExpr, hdi, hgm, hdl0,
          msgraphDownloadFallback, hg, hdl]
      · simp [downloadAttachment, remoteDownloadExpr, hdi, hgm, hdl0,
          msgraphDownloadFallback, hg, hdl]
  · intro r d s
    cases r <;> simp [marshalGmailResponse, marshalMsgraphResponse]

/-- A Microsoft account exposing only the msgraph download service. -/
def msOnlyEnv : AccountEnv :=
  ⟨some ⟨true,
    some ⟨false, false, false, false, false, false, true, .buffer "TVNHUkFQSA==" 7⟩,
    none⟩, []⟩

/-- Witness for the amended claim C8: with no gmail service present the
concrete call dispatches to the msgraph method and returns its content. -/
theorem download_dispatch_by_availability_witness :
    (downloadAttachment msOnlyEnv "m1" "a1" "t1" "").2
      = [.msgraphDownload "m1" "a1"]
    ∧ (downloadAttachment msOnlyEnv "m1" "a1" "t1" "").1
      = finalizeDl (marshalMsgraphResponse (.buffer "TVNHUkFQSA==" 7)) :=
  (download_dispatch_by_availability msOnlyEnv
    ⟨true, some ⟨false, false, false, false, false, false, true,
      .buffer "TVNHUkFQSA==" 7⟩, none⟩
    "t1" "m1" "a1" "" rfl).2.1 (Or.inl rfl)
    ⟨false, false, false, false, false, false, true, .buffer "TVNHUkFQSA==" 7⟩
    rfl rfl
